import Mathlib

/-!
Shallow embedding of `src/printer.rs` (tauri-plugin-printer): the print
dispatcher `print_to_all_printers`, the USB fallback chain
`attempt_usb_print`, the network transport `attempt_network_print`, the
settings validator `validate_printer_settings`, the OS-print-command
transport `try_windows_print_command`, and the KOT content renderer
`generate_kot_content_from_db`.

External effects (the Windows spooler, the OS `print` command, the serial
port, the TCP stack, the SQLite status store behind a mutex, and the wall
clock) are modelled as oracle inputs: each dispatch receives the outcome
every external call would produce, and the embedding replays the source's
control flow over those outcomes, recording an explicit effect trace.
-/

set_option maxRecDepth 100000

deriving instance DecidableEq for Except

namespace Printer

/-- `PrinterSettings` from `crate::db` as used by `printer.rs`:
`usb_port` (device/queue name, may be empty), `baud_rate` (u32, `0` means
not serial-capable), `network_ip` (`host:port`, may be empty). -/
structure PrinterSettings where
  usb_port : String
  baud_rate : Nat
  network_ip : String
deriving DecidableEq, Repr

/-- `validate_printer_settings` (printer.rs lines 185-197): both checks run
unconditionally, each appends one message to the error list. -/
def validate_printer_settings (s : PrinterSettings) : List String :=
  let errors : List String := []
  let errors :=
    if s.usb_port.isEmpty && s.network_ip.isEmpty then
      errors ++ ["No printers configured"]
    else errors
  let errors :=
    if !s.usb_port.isEmpty && s.baud_rate == 0 then
      errors ++ ["Invalid baud rate for USB printer"]
    else errors
  errors

/-- Oracle outcomes for the three USB transport methods tried by
`attempt_usb_print`: what `try_raw_usb_print`, `try_windows_print_command`
and `try_serial_port` would each return if invoked. -/
structure UsbEnv where
  rawResult : Except String Unit
  winResult : Except String Unit
  serialResult : Except String Unit
deriving DecidableEq, Repr

/-- Which of the three USB methods were actually invoked during one run of
the fallback chain. -/
structure UsbTrace where
  triedRaw : Bool
  triedWin : Bool
  triedSerial : Bool
deriving DecidableEq, Repr

/-- `attempt_usb_print` (printer.rs lines 199-220): spooler-raw, then the
Windows print command, then (only when `baud_rate > 0`) the serial port;
each failure is logged and the next method tried; exhaustion yields the
aggregate message. -/
def attempt_usb_print (s : PrinterSettings) (env : UsbEnv) :
    Except String Unit × UsbTrace :=
  match env.rawResult with
  | .ok _ => (.ok (), ⟨true, false, false⟩)
  | .error _ =>
    match env.winResult with
    | .ok _ => (.ok (), ⟨true, true, false⟩)
    | .error _ =>
      if s.baud_rate > 0 then
        match env.serialResult with
        | .ok _ => (.ok (), ⟨true, true, true⟩)
        | .error _ => (.error "All USB printing methods failed", ⟨true, true, true⟩)
      else
        (.error "All USB printing methods failed", ⟨true, true, false⟩)

/-- Outcome of `tokio::time::timeout(PRINT_TIMEOUT, TcpStream::connect _)`:
the timer fired first, the connect finished with an error, or the connect
succeeded. -/
inductive ConnectResult where
  | timeout
  | connErr (msg : String)
  | connected
deriving DecidableEq, Repr

/-- Oracle outcomes for the network transport's external calls. -/
structure NetEnv where
  connect : ConnectResult
  writeRes : Except String Unit
  flushRes : Except String Unit
deriving DecidableEq, Repr

/-- Effect trace of one network attempt: the connect-timeout bound (in
seconds) handed to `tokio::time::timeout`, the payloads fully written to
the stream, and whether the stream was flushed. -/
structure NetTrace where
  connectTimeoutSecs : Nat
  wrote : List String
  flushed : Bool
deriving DecidableEq, Repr

/-- `PRINT_TIMEOUT` (printer.rs line 17): `Duration::from_secs(10)`. -/
def PRINT_TIMEOUT_SECS : Nat := 10

/-- `attempt_network_print` (printer.rs lines 310-325): connect bounded by
`PRINT_TIMEOUT`; timeout gives `"Connection timeout"`, a connect error
gives `"Connection failed: _"`; then `write_all` and `flush`, each mapped
to its own failure message. -/
def attempt_network_print (content : String) (env : NetEnv) :
    Except String Unit × NetTrace :=
  match env.connect with
  | .timeout => (.error "Connection timeout", ⟨PRINT_TIMEOUT_SECS, [], false⟩)
  | .connErr e => (.error ("Connection failed: " ++ e), ⟨PRINT_TIMEOUT_SECS, [], false⟩)
  | .connected =>
    match env.writeRes with
    | .error e => (.error ("Write failed: " ++ e), ⟨PRINT_TIMEOUT_SECS, [], false⟩)
    | .ok _ =>
      match env.flushRes with
      | .error e => (.error ("Flush failed: " ++ e), ⟨PRINT_TIMEOUT_SECS, [content], false⟩)
      | .ok _ => (.ok (), ⟨PRINT_TIMEOUT_SECS, [content], true⟩)

/-- Oracle outcomes for one dispatch: the USB methods, the network calls,
and the status store (mutex acquisition and `set_print_status_internal`
for each transport class). -/
structure DispatchEnv where
  usb : UsbEnv
  net : NetEnv
  usbLock : Except String Unit
  usbSetStatus : Except String Unit
  netLock : Except String Unit
  netSetStatus : Except String Unit
deriving DecidableEq, Repr

/-- Effect trace of one dispatch: whether each transport class was
attempted, the `set_print_status_internal` calls issued (channel,
success flag), and the error-log lines emitted for persistence failures. -/
structure DispatchTrace where
  usbAttempted : Bool
  networkAttempted : Bool
  statusCalls : List (String × Bool)
  persistenceLog : List String
deriving DecidableEq, Repr

/-- `print_to_all_printers` (printer.rs lines 21-80): reject empty content,
reject invalid settings with the messages joined by `" | "`, then run the
USB chain and the network attempt sequentially.  After a transport-class
success the mutex is acquired with `.map_err(..)?` — a lock failure
propagates immediately — and `set_print_status_internal` is called, its
failure only logged.  Class failures accumulate as `"USB: _"` /
`"Network: _"` and are joined by `" | "`; an empty accumulator yields the
success message. -/
def print_to_all_printers (content : String) (s : PrinterSettings)
    (env : DispatchEnv) : Except String String × DispatchTrace :=
  if content.isEmpty then
    (.error "Print content cannot be empty", ⟨false, false, [], []⟩)
  else
    let errors := validate_printer_settings s
    if !errors.isEmpty then
      (.error (String.intercalate " | " errors), ⟨false, false, [], []⟩)
    else
      -- USB printing
      let usbStep : Except String (List String × List (String × Bool) × List String) :=
        if !s.usb_port.isEmpty then
          match (attempt_usb_print s env.usb).1 with
          | .ok _ =>
            match env.usbLock with
            | .error e => .error e
            | .ok _ =>
              match env.usbSetStatus with
              | .ok _ => .ok ([], [("usb", true)], [])
              | .error e =>
                .ok ([], [("usb", true)], ["Failed to update USB print status: " ++ e])
          | .error e => .ok (["USB: " ++ e], [], [])
        else .ok ([], [], [])
      match usbStep with
      | .error e =>
        (.error e, ⟨!s.usb_port.isEmpty, false, [], []⟩)
      | .ok (usbErrs, usbCalls, usbLog) =>
        -- Network printing
        let netStep : Except String (List String × List (String × Bool) × List String) :=
          if !s.network_ip.isEmpty then
            match (attempt_network_print content env.net).1 with
            | .ok _ =>
              match env.netLock with
              | .error e => .error e
              | .ok _ =>
                match env.netSetStatus with
                | .ok _ => .ok ([], [("network", true)], [])
                | .error e =>
                  .ok ([], [("network", true)], ["Failed to update Network print status: " ++ e])
            | .error e => .ok (["Network: " ++ e], [], [])
          else .ok ([], [], [])
        match netStep with
        | .error e =>
          (.error e, ⟨!s.usb_port.isEmpty, !s.network_ip.isEmpty, usbCalls, usbLog⟩)
        | .ok (netErrs, netCalls, netLog) =>
          let print_errors := usbErrs ++ netErrs
          let trace : DispatchTrace :=
            ⟨!s.usb_port.isEmpty, !s.network_ip.isEmpty,
              usbCalls ++ netCalls, usbLog ++ netLog⟩
          if print_errors.isEmpty then
            (.ok "Successfully sent print job(s).", trace)
          else
            (.error (String.intercalate " | " print_errors), trace)

/-- Process outcome of the shelled-out `cmd /C print` invocation:
`status.success()`, display of the status, and captured stderr/stdout. -/
structure CmdOutput where
  success : Bool
  status : String
  stderr : String
  stdout : String
deriving DecidableEq, Repr

/-- Oracle inputs for `try_windows_print_command`: the system temp
directory, the outcome of `std::fs::write`, and the outcome of launching
the print command (`error` = the process could not be spawned). -/
structure WinCmdEnv where
  tempDir : String
  writeRes : Except String Unit
  launch : Except String CmdOutput
deriving DecidableEq, Repr

/-- Filesystem/process effect trace of `try_windows_print_command`:
attempted file writes (path, content), spawned commands (program, args),
and `remove_file` calls. -/
structure FsTrace where
  writes : List (String × String)
  commands : List (String × List String)
  removes : List String
deriving DecidableEq, Repr

/-- `try_windows_print_command` (printer.rs lines 259-291): writes
`"\x1B@" ++ content` to `temp_dir()/zkp_print.txt`; a write failure
returns immediately (no `remove_file` on that path); otherwise runs
`cmd /C print /D:\\localhost\<printer> <file>`, removes the temp file,
and fails on launch failure or non-success exit status. -/
def try_windows_print_command (content printer_name : String)
    (env : WinCmdEnv) : Except String Unit × FsTrace :=
  let temp_path := env.tempDir ++ "/zkp_print.txt"
  let formatted_content := "\x1B@" ++ content
  match env.writeRes with
  | .error e =>
    (.error ("Failed to create print file: " ++ e),
      ⟨[(temp_path, formatted_content)], [], []⟩)
  | .ok _ =>
    let cmd := ("cmd", ["/C", "print", "/D:\\\\localhost\\" ++ printer_name, temp_path])
    match env.launch with
    | .error e =>
      (.error ("Failed to execute print command: " ++ e),
        ⟨[(temp_path, formatted_content)], [cmd], [temp_path]⟩)
    | .ok output =>
      if !output.success then
        (.error ("Print command failed. Status: " ++ output.status ++
            ". Stderr: " ++ output.stderr ++ ". Stdout: " ++ output.stdout),
          ⟨[(temp_path, formatted_content)], [cmd], [temp_path]⟩)
      else
        (.ok (), ⟨[(temp_path, formatted_content)], [cmd], [temp_path]⟩)

/-- Rust `str::split(sep)` over a char list: segments between occurrences
of `sep`, empty segments preserved; the result is never empty. -/
def splitChars (sep : Char) : List Char → List (List Char)
  | [] => [[]]
  | c :: cs =>
    match splitChars sep cs with
    | [] => [[]]
    | h :: t => if c = sep then [] :: h :: t else (c :: h) :: t

/-- The Kot number (printer.rs line 107):
`order_number.split('-').last().unwrap_or("")`. -/
def kot_number (order_number : String) : String :=
  match (splitChars '-' order_number.data).getLast? with
  | some seg => String.mk seg
  | none => ""

/-- ESC/POS initialize sequence (printer.rs line 88). -/
def INIT : String := "\x1B@"

/-- ESC/POS bold-on sequence (printer.rs line 89). -/
def BOLD_ON : String := "\x1B\x45\x01"

/-- ESC/POS bold-off sequence (printer.rs line 90). -/
def BOLD_OFF : String := "\x1B\x45\x00"

/-- ESC/POS cut-paper sequence (printer.rs line 91). -/
def CUT_PAPER : String := "\x1D\x56\x41\x00"

/-- Fixed receipt width (printer.rs line 92). -/
def LINE_WIDTH : Nat := 48

/-- Rust `" ".repeat n`. -/
def spaces (n : Nat) : String := String.mk (List.replicate n ' ')

/-- Rust `"-".repeat n`. -/
def dashes (n : Nat) : String := String.mk (List.replicate n '-')

/-- Per-flavor entry of a complex breakdown blob: a total and keyed
modifier counts (serde map, modelled as an association list in iteration
order). -/
structure FlavorData where
  total : Nat
  modifier : List (String × Nat)
deriving DecidableEq, Repr

/-- Complex breakdown blob (`SectionData`): overall total plus named
flavor entries. -/
structure SectionData where
  total : Nat
  flavors : List (String × FlavorData)
deriving DecidableEq, Repr

/-- Simple breakdown blob (`SimpleSectionData`): just a total. -/
structure SimpleSectionData where
  total : Nat
deriving DecidableEq, Repr

/-- One optional JSON breakdown column, abstracted past serde: the outcome
of parsing the string as `SectionData` and as `SimpleSectionData`
(`none` = that parse fails). -/
structure Blob where
  asSection : Option SectionData
  asSimple : Option SimpleSectionData
deriving DecidableEq, Repr

/-- One row of `item_data`: type tag, name, quantity, and the optional
dine-in and pack breakdown blobs (`none` = NULL column). -/
structure OrderItem where
  item_type : String
  name : String
  quantity : Nat
  dinein_json : Option Blob
  pack_json : Option Blob
deriving DecidableEq, Repr

/-- Rust `str::replace(pattern, replacement)` specialised to the one-char
pattern and replacement the source uses (`replace("_", " ")`). -/
def replaceChar (c r : Char) (s : String) : String :=
  String.mk (s.data.map (fun a => if a = c then r else a))

/-- Flavor line of `render_complex_section` (printer.rs lines 130-145):
skip zero totals; underscores become spaces; modifiers with positive
counts joined by `", "` in a trailing parenthetical. -/
def render_flavor (fv : String × FlavorData) : String :=
  if fv.2.total > 0 then
    let modifier_texts :=
      (fv.2.modifier.filter (fun m => m.2 > 0)).map
        (fun m => replaceChar '_' ' ' m.1 ++ ":" ++ toString m.2)
    "    - " ++ replaceChar '_' ' ' fv.1 ++ ": " ++ toString fv.2.total ++
      (if !modifier_texts.isEmpty then
        " (" ++ String.intercalate ", " modifier_texts ++ ")\n"
      else "\n")
  else ""

/-- `render_complex_section` closure (printer.rs lines 125-149): absent or
unparseable blobs and zero totals render nothing; otherwise a section
header then the flavor lines. -/
def render_complex_section (blob : Option Blob) (section_name : String) : String :=
  match blob with
  | none => ""
  | some b =>
    match b.asSection with
    | none => ""
    | some data =>
      if data.total > 0 then
        "  - " ++ section_name ++ " (" ++ toString data.total ++ ")\n" ++
          String.join (data.flavors.map render_flavor)
      else ""

/-- `render_simple_section` closure (printer.rs lines 154-162). -/
def render_simple_section (blob : Option Blob) (section_name : String) : String :=
  match blob with
  | none => ""
  | some b =>
    match b.asSimple with
    | none => ""
    | some data =>
      if data.total > 0 then
        "  - " ++ section_name ++ ": " ++ toString data.total ++ "\n"
      else ""

/-- One item of the item loop (printer.rs lines 120-167): bold
`<quantity>) <name>` header, then complex sections for
`"corndog"`/`"beverage"`, simple sections otherwise, dine-in (`"Table"`)
before pack (`"Pack"`). -/
def render_item (it : OrderItem) : String :=
  BOLD_ON ++ toString it.quantity ++ ") " ++ it.name ++ BOLD_OFF ++ "\n" ++
    (if it.item_type == "corndog" || it.item_type == "beverage" then
      render_complex_section it.dinein_json "Table" ++
        render_complex_section it.pack_json "Pack"
    else
      render_simple_section it.dinein_json "Table" ++
        render_simple_section it.pack_json "Pack")

/-- Totals text (printer.rs lines 171-175): amounts modelled as naturals
(the source holds `f64`; the claims only exercise integral values, whose
Rust display agrees with `toString`). -/
def estimate_text (total_amount discount_amount : Nat) : String :=
  if discount_amount > 0 then
    toString total_amount ++ " (-" ++ toString discount_amount ++ ")"
  else
    toString total_amount

/-- Totals line (printer.rs lines 176-177): padding is
`LINE_WIDTH.saturating_sub(text.len()).saturating_sub(username.len())`,
which is Nat subtraction. -/
def footer_line (total_amount discount_amount : Nat) (username : String) : String :=
  let e := estimate_text total_amount discount_amount
  let footer_padding := (LINE_WIDTH - e.length) - username.length
  e ++ spaces footer_padding ++ username

/-- Order data fetched from the database by `generate_kot_content_from_db`
(the fetch itself is an external read; these are the fields the renderer
consumes). -/
structure OrderRenderContext where
  order_number : String
  has_table : Bool
  notes : String
  item_data : List OrderItem
  total_amount : Nat
  discount_amount : Nat
deriving DecidableEq, Repr

/-- `generate_kot_content_from_db` (printer.rs lines 84-183), rendering
only: the wall-clock read `Local::now().format(..)` enters as the
`date_time` argument. -/
def generate_kot_content_from_db (ctx : OrderRenderContext)
    (is_reprint : Bool) (username : String) (date_time : String) : String :=
  let content := INIT
  let content := content ++
    (if is_reprint then BOLD_ON ++ "*** REPRINT ***" ++ BOLD_OFF ++ "\n" else "")
  let order_type_text := if ctx.has_table then "Table " else "[Pack]"
  let header_line :=
    "Kot: " ++ BOLD_ON ++ kot_number ctx.order_number ++ BOLD_OFF ++ spaces 6 ++
      BOLD_ON ++ order_type_text ++ BOLD_OFF
  let content := content ++ header_line ++ spaces 6 ++ date_time ++ "\n"
  let content := content ++ dashes LINE_WIDTH ++ "\n"
  let content := content ++ "Notes: " ++ ctx.notes ++ "\n"
  let content := content ++ dashes LINE_WIDTH ++ "\n"
  let content := content ++ String.join (ctx.item_data.map render_item)
  let content := content ++ dashes LINE_WIDTH ++ "\n"
  let content := content ++ footer_line ctx.total_amount ctx.discount_amount username ++ "\n"
  let content := content ++ "Note: This is not a bill. Please contact cash counter for the bill."
  let content := content ++ "\n\n"
  content ++ CUT_PAPER

/-- Lines of a rendered payload (split on newline). -/
def strLines (s : String) : List String :=
  (splitChars '\n' s.data).map String.mk

/-- Whether `p` is a character-wise starting segment of `s`. -/
def strStartsWith (p s : String) : Bool :=
  p.data.isPrefixOf s.data

/-- Spec-side reading of the Kot number (refinement target for
`kot_number`): the segment after the last occurrence of `sep`, or the
whole list when `sep` does not occur. -/
def afterLastSep (sep : Char) : List Char → List Char
  | [] => []
  | c :: cs =>
    if sep ∈ cs then afterLastSep sep cs
    else if c = sep then cs
    else c :: cs

/-- Concrete settings with both transport classes configured. -/
def demoSettings : PrinterSettings := ⟨"POS-58", 9600, "192.168.1.50:9100"⟩

/-- Concrete environment: USB succeeds, the network connect times out,
every store interaction succeeds. -/
def c1env : DispatchEnv :=
  ⟨⟨.ok (), .ok (), .ok ()⟩, ⟨.timeout, .ok (), .ok ()⟩, .ok (), .ok (), .ok (), .ok ()⟩

/-- Concrete environment in which every external interaction succeeds. -/
def anyEnv : DispatchEnv :=
  ⟨⟨.ok (), .ok (), .ok ()⟩, ⟨.connected, .ok (), .ok ()⟩, .ok (), .ok (), .ok (), .ok ()⟩

/-- Concrete environment: both transports succeed but the status-store
mutex acquisition after the USB success fails. -/
def lockFailEnv : DispatchEnv :=
  ⟨⟨.ok (), .ok (), .ok ()⟩, ⟨.connected, .ok (), .ok ()⟩,
    .error "lock poisoned", .ok (), .ok (), .ok ()⟩

/-- Concrete environment: both transports and both lock acquisitions
succeed, both `set_print_status_internal` calls fail. -/
def persistFailEnv : DispatchEnv :=
  ⟨⟨.ok (), .ok (), .ok ()⟩, ⟨.connected, .ok (), .ok ()⟩,
    .ok (), .error "db is locked", .ok (), .error "db is locked"⟩

/-- Concrete OS-print-command environment whose `fs::write` fails. -/
def writeFailEnv : WinCmdEnv :=
  ⟨"C:/Temp", .error "disk full", .ok ⟨true, "exit code: 0", "", ""⟩⟩

/-- Concrete OS-print-command environment: the write succeeds and the
spawned process exits with a non-success status. -/
def exitFailEnv : WinCmdEnv :=
  ⟨"C:/Temp", .ok (), .ok ⟨false, "exit code: 1", "no such printer", ""⟩⟩

/-- Concrete order context with no items, used for the renderer claims. -/
def c5ctx : OrderRenderContext := ⟨"ORD-2024-17", true, "no onions", [], 250, 0⟩

/-- Dine-in breakdown blob of the spec's composite-item example:
`{total:2, flavors:{"choco":{total:2, modifier:{"extra_sauce":1}}}}`. -/
def c8blob : Blob := ⟨some ⟨2, [("choco", ⟨2, [("extra_sauce", 1)]⟩)]⟩, some ⟨2⟩⟩

/-- Composite item carrying `c8blob` as its dine-in breakdown and no pack
breakdown. -/
def c8item : OrderItem := ⟨"corndog", "Corndog", 2, some c8blob, none⟩

/-- Order context holding exactly the composite item `c8item`. -/
def c8ctx : OrderRenderContext := ⟨"ORD-2024-17", true, "chili on side", [c8item], 100, 10⟩

/-! ## Helper lemmas -/

theorem intercalate_singleton (sep x : String) : String.intercalate sep [x] = x := rfl

theorem spaces_length (n : Nat) : (spaces n).length = n := by
  rw [show (spaces n).length = (List.replicate n ' ').length from rfl, List.length_replicate]

theorem splitChars_ne_nil (sep : Char) : ∀ l : List Char, splitChars sep l ≠ []
  | [] => by simp [splitChars]
  | c :: cs => by
    cases h : splitChars sep cs with
    | nil => exact absurd h (splitChars_ne_nil sep cs)
    | cons hd tl =>
      simp only [splitChars, h]
      split <;> simp

theorem splitChars_length (sep : Char) :
    ∀ l : List Char, (splitChars sep l).length = l.count sep + 1
  | [] => by simp [splitChars]
  | c :: cs => by
    have ih := splitChars_length sep cs
    cases h : splitChars sep cs with
    | nil => exact absurd h (splitChars_ne_nil sep cs)
    | cons hd tl =>
      rw [h] at ih
      simp only [List.length_cons] at ih
      by_cases hc : c = sep
      · simp [splitChars, h, hc, List.count_cons]
        omega
      · simp [splitChars, h, hc, List.count_cons]
        omega

theorem splitChars_not_mem (sep : Char) :
    ∀ l : List Char, sep ∉ l → splitChars sep l = [l]
  | [] => by simp [splitChars]
  | c :: cs => by
    intro h
    have hc : ¬(c = sep) := fun hh => h (by simp [hh])
    have hcs : sep ∉ cs := fun hh => h (by simp [hh])
    simp [splitChars, splitChars_not_mem sep cs hcs, hc]

theorem afterLastSep_not_mem (sep : Char) :
    ∀ l : List Char, sep ∉ l → afterLastSep sep l = l
  | [] => by simp [afterLastSep]
  | c :: cs => by
    intro h
    have hc : ¬(c = sep) := fun hh => h (by simp [hh])
    have hcs : sep ∉ cs := fun hh => h (by simp [hh])
    simp [afterLastSep, hc, hcs]

theorem splitChars_getLast?_eq (sep : Char) :
    ∀ l : List Char, (splitChars sep l).getLast? = some (afterLastSep sep l)
  | [] => by simp [splitChars, afterLastSep]
  | c :: cs => by
    have ih := splitChars_getLast?_eq sep cs
    cases h : splitChars sep cs with
    | nil => exact absurd h (splitChars_ne_nil sep cs)
    | cons hd tl =>
      rw [h] at ih
      by_cases hc : c = sep
      · simp only [splitChars, h, if_pos hc]
        rw [List.getLast?_cons_cons, ih]
        by_cases hcs : sep ∈ cs
        · simp [afterLastSep, hcs]
        · simp [afterLastSep, hcs, hc, afterLastSep_not_mem sep cs hcs]
      · simp only [splitChars, h, if_neg hc]
        cases tl with
        | nil =>
          have hlen := splitChars_length sep cs
          rw [h] at hlen
          simp at hlen
          have hcs : sep ∉ cs := List.count_eq_zero.mp hlen
          have hhd : hd = cs := by
            have := splitChars_not_mem sep cs hcs
            rw [h] at this
            simpa using this
          subst hhd
          simp [afterLastSep, hcs, hc]
        | cons t0 t1 =>
          have hlen := splitChars_length sep cs
          rw [h] at hlen
          have hcs : sep ∈ cs := by
            by_contra hno
            rw [List.count_eq_zero.mpr hno] at hlen
            simp at hlen
          rw [List.getLast?_cons_cons]
          rw [List.getLast?_cons_cons] at ih
          rw [ih]
          simp [afterLastSep, hcs]

/-! ## Claim theorems -/

/-- C1: when the USB chain succeeds (and the status-store lock is
acquired, as the persisted `usb=true` call presupposes) while the network
attempt fails, the dispatch returns a failure carrying only the network
error prefixed `"Network: "`, yet `set_print_status` was called with
`usb=true`; symmetrically with the classes swapped — neither class's
failure is suppressed by the other's success. -/
theorem dispatch_cross_class_errors (content : String) (s : PrinterSettings)
    (env : DispatchEnv)
    (hc : content.isEmpty = false)
    (hv : validate_printer_settings s = [])
    (hu : s.usb_port.isEmpty = false)
    (hn : s.network_ip.isEmpty = false) :
    (∀ e, (attempt_usb_print s env.usb).1 = .ok () → env.usbLock = .ok () →
      (attempt_network_print content env.net).1 = .error e →
      (print_to_all_printers content s env).1 = .error ("Network: " ++ e) ∧
      ("usb", true) ∈ (print_to_all_printers content s env).2.statusCalls) ∧
    (∀ e, (attempt_usb_print s env.usb).1 = .error e →
      (attempt_network_print content env.net).1 = .ok () → env.netLock = .ok () →
      (print_to_all_printers content s env).1 = .error ("USB: " ++ e) ∧
      ("network", true) ∈ (print_to_all_printers content s env).2.statusCalls) := by
  constructor
  · intro e hU hL hN
    cases hss : env.usbSetStatus <;>
      simp [print_to_all_printers, hc, hv, hu, hn, hU, hL, hN, hss, intercalate_singleton]
  · intro e hU hN hL
    cases hss : env.netSetStatus <;>
      simp [print_to_all_printers, hc, hv, hu, hn, hU, hL, hN, hss, intercalate_singleton]

/-- Witness for C1: USB success with a network connect timeout yields the
failure `"Network: Connection timeout"` while `usb=true` was persisted. -/
theorem dispatch_cross_class_errors_witness :
    (print_to_all_printers "KOT" demoSettings c1env).1 =
      .error "Network: Connection timeout" ∧
    ("usb", true) ∈ (print_to_all_printers "KOT" demoSettings c1env).2.statusCalls :=
  (dispatch_cross_class_errors "KOT" demoSettings c1env rfl rfl rfl rfl).1
    "Connection timeout" rfl rfl rfl

/-- C2: the USB fallback chain tries spooler-raw, then the OS print
command, then serial (only when `baud_rate > 0`), returns at the first
success without invoking later methods, does not count a skipped serial
step as a failure, and on exhaustion of the attempted methods returns
exactly `"All USB printing methods failed"`. -/
theorem usb_fallback_chain_order (s : PrinterSettings) (env : UsbEnv) :
    (env.rawResult = .ok () →
      attempt_usb_print s env = (.ok (), ⟨true, false, false⟩)) ∧
    (∀ e, env.rawResult = .error e → env.winResult = .ok () →
      attempt_usb_print s env = (.ok (), ⟨true, true, false⟩)) ∧
    (∀ e₁ e₂, env.rawResult = .error e₁ → env.winResult = .error e₂ →
      s.baud_rate > 0 → env.serialResult = .ok () →
      attempt_usb_print s env = (.ok (), ⟨true, true, true⟩)) ∧
    (s.baud_rate = 0 → (attempt_usb_print s env).2.triedSerial = false) ∧
    (∀ e₁ e₂, env.rawResult = .error e₁ → env.winResult = .error e₂ →
      (s.baud_rate = 0 ∨ ∃ e₃, env.serialResult = .error e₃) →
      (attempt_usb_print s env).1 = .error "All USB printing methods failed") := by
  refine ⟨?_, ?_, ?_, ?_, ?_⟩
  · intro h; simp [attempt_usb_print, h]
  · intro e h1 h2; simp [attempt_usb_print, h1, h2]
  · intro e₁ e₂ h1 h2 hb h3; simp [attempt_usb_print, h1, h2, hb, h3]
  · intro h
    cases hr : env.rawResult <;> cases hw : env.winResult <;>
      simp [attempt_usb_print, hr, hw, h]
  · intro e₁ e₂ h1 h2 h3
    rcases h3 with h3 | ⟨e₃, h3⟩
    · simp [attempt_usb_print, h1, h2, h3]
    · simp only [attempt_usb_print, h1, h2, h3]
      split <;> rfl

/-- Witness for C2: the chain succeeds at the second method and the third
is never invoked. -/
theorem usb_fallback_chain_order_witness :
    attempt_usb_print demoSettings ⟨.error "spooler down", .ok (), .error "no port"⟩ =
      (.ok (), ⟨true, true, false⟩) :=
  (usb_fallback_chain_order demoSettings
    ⟨.error "spooler down", .ok (), .error "no port"⟩).2.1 "spooler down" rfl rfl

/-- C3: `validate_printer_settings` reports `"No printers configured"`
exactly when both ports are empty and `"Invalid baud rate for USB
printer"` exactly when the USB port is set with `baud_rate = 0`, returns
`[]` for every other settings record, and the dispatcher turns any
non-empty result into a pre-flight failure joined by `" | "` with no
transport attempted. -/
theorem validate_settings_spec (s : PrinterSettings) (content : String)
    (env : DispatchEnv) :
    ("No printers configured" ∈ validate_printer_settings s ↔
      s.usb_port.isEmpty = true ∧ s.network_ip.isEmpty = true) ∧
    ("Invalid baud rate for USB printer" ∈ validate_printer_settings s ↔
      s.usb_port.isEmpty = false ∧ s.baud_rate = 0) ∧
    (¬(s.usb_port.isEmpty = true ∧ s.network_ip.isEmpty = true) →
      ¬(s.usb_port.isEmpty = false ∧ s.baud_rate = 0) →
      validate_printer_settings s = []) ∧
    (content.isEmpty = false → validate_printer_settings s ≠ [] →
      print_to_all_printers content s env =
        (.error (String.intercalate " | " (validate_printer_settings s)),
          ⟨false, false, [], []⟩)) := by
  refine ⟨?_, ?_, ?_, ?_⟩
  · cases hu : s.usb_port.isEmpty <;> cases hn : s.network_ip.isEmpty <;>
      rcases hb : s.baud_rate with _ | b <;>
        simp [validate_printer_settings, hu, hn, hb] <;> decide
  · cases hu : s.usb_port.isEmpty <;> cases hn : s.network_ip.isEmpty <;>
      rcases hb : s.baud_rate with _ | b <;>
        simp [validate_printer_settings, hu, hn, hb] <;> decide
  · intro h1 h2
    cases hu : s.usb_port.isEmpty <;> cases hn : s.network_ip.isEmpty <;>
      rcases hb : s.baud_rate with _ | b <;>
        simp [validate_printer_settings, hu, hn, hb] <;>
          simp [hu, hn, hb] at h1 h2 <;> omega
  · intro hc hv
    have h1 : (validate_printer_settings s).isEmpty = false := by
      cases hval : validate_printer_settings s with
      | nil => exact absurd hval hv
      | cons a t => rfl
    simp [print_to_all_printers, hc, h1]

/-- Witness for C3: with both ports empty, validation is non-empty and the
dispatch fails pre-flight with no transport attempted. -/
theorem validate_settings_spec_witness :
    validate_printer_settings ⟨"", 0, ""⟩ ≠ [] ∧
    print_to_all_printers "KOT" ⟨"", 0, ""⟩ anyEnv =
      (.error "No printers configured", ⟨false, false, [], []⟩) := by
  refine ⟨by decide, ?_⟩
  have h := (validate_settings_spec ⟨"", 0, ""⟩ "KOT" anyEnv).2.2.2 rfl (by decide)
  rw [h]
  rfl

/-- C4 counterexample: both transports succeed, yet a failure to acquire
the status-store lock after the USB success aborts the dispatch with the
lock error (and no status call is recorded), so a lock-acquisition
failure is not merely logged. -/
theorem dispatch_lock_failure_counterexample :
    (attempt_usb_print demoSettings lockFailEnv.usb).1 = .ok () ∧
    (attempt_network_print "KOT" lockFailEnv.net).1 = .ok () ∧
    (print_to_all_printers "KOT" demoSettings lockFailEnv).1 = .error "lock poisoned" ∧
    (print_to_all_printers "KOT" demoSettings lockFailEnv).2.statusCalls = [] := by
  refine ⟨rfl, rfl, rfl, rfl⟩

/-- C4 (amended): after a successful print on every configured transport
class whose lock acquisition also succeeds, a `set_print_status_internal`
failure is only logged and the dispatch still returns success; only a
mutex-acquisition failure propagates. -/
theorem dispatch_persistence_nonfatal (content : String) (s : PrinterSettings)
    (env : DispatchEnv)
    (hc : content.isEmpty = false)
    (hv : validate_printer_settings s = [])
    (husb : s.usb_port.isEmpty = false →
      (attempt_usb_print s env.usb).1 = .ok () ∧ env.usbLock = .ok ())
    (hnet : s.network_ip.isEmpty = false →
      (attempt_network_print content env.net).1 = .ok () ∧ env.netLock = .ok ()) :
    (print_to_all_printers content s env).1 = .ok "Successfully sent print job(s)." ∧
    (∀ e, s.usb_port.isEmpty = false → env.usbSetStatus = .error e →
      ("Failed to update USB print status: " ++ e) ∈
        (print_to_all_printers content s env).2.persistenceLog) ∧
    (∀ e, s.network_ip.isEmpty = false → env.netSetStatus = .error e →
      ("Failed to update Network print status: " ++ e) ∈
        (print_to_all_printers content s env).2.persistenceLog) := by
  refine ⟨?_, ?_, ?_⟩
  · cases hu : s.usb_port.isEmpty <;> cases hn : s.network_ip.isEmpty
    · obtain ⟨hU, hUL⟩ := husb hu
      obtain ⟨hN, hNL⟩ := hnet hn
      cases h1 : env.usbSetStatus <;> cases h2 : env.netSetStatus <;>
        simp [print_to_all_printers, hc, hv, hu, hn, hU, hUL, hN, hNL, h1, h2]
    · obtain ⟨hU, hUL⟩ := husb hu
      cases h1 : env.usbSetStatus <;>
        simp [print_to_all_printers, hc, hv, hu, hn, hU, hUL, h1]
    · obtain ⟨hN, hNL⟩ := hnet hn
      cases h2 : env.netSetStatus <;>
        simp [print_to_all_printers, hc, hv, hu, hn, hN, hNL, h2]
    · simp [print_to_all_printers, hc, hv, hu, hn]
  · intro e hu hss
    cases hn : s.network_ip.isEmpty
    · obtain ⟨hU, hUL⟩ := husb hu
      obtain ⟨hN, hNL⟩ := hnet hn
      cases h2 : env.netSetStatus <;>
        simp [print_to_all_printers, hc, hv, hu, hn, hU, hUL, hN, hNL, hss, h2]
    · obtain ⟨hU, hUL⟩ := husb hu
      simp [print_to_all_printers, hc, hv, hu, hn, hU, hUL, hss]
  · intro e hn hss
    cases hu : s.usb_port.isEmpty
    · obtain ⟨hU, hUL⟩ := husb hu
      obtain ⟨hN, hNL⟩ := hnet hn
      cases h1 : env.usbSetStatus <;>
        simp [print_to_all_printers, hc, hv, hu, hn, hU, hUL, hN, hNL, hss, h1]
    · obtain ⟨hN, hNL⟩ := hnet hn
      simp [print_to_all_printers, hc, hv, hu, hn, hN, hNL, hss]

/-- Witness for C4 (amended): both status writes fail, both failures are
logged, and the dispatch still reports success. -/
theorem dispatch_persistence_nonfatal_witness :
    (print_to_all_printers "KOT" demoSettings persistFailEnv).1 =
      .ok "Successfully sent print job(s)." ∧
    ("Failed to update USB print status: db is locked") ∈
      (print_to_all_printers "KOT" demoSettings persistFailEnv).2.persistenceLog := by
  have h := dispatch_persistence_nonfatal "KOT" demoSettings persistFailEnv rfl rfl
    (fun _ => ⟨rfl, rfl⟩) (fun _ => ⟨rfl, rfl⟩)
  exact ⟨h.1, h.2.1 "db is locked" rfl rfl⟩

/-- C5 counterexample: the renderer reads the wall clock
(`Local::now()`), so two runs over the identical order context, reprint
flag and username produce different payloads when the clock has moved. -/
theorem renderer_clock_dependence_counterexample :
    generate_kot_content_from_db c5ctx false "Alex" "2024-01-01 01:00:00 AM" ≠
      generate_kot_content_from_db c5ctx false "Alex" "2024-01-01 01:00:01 AM" := by
  decide

/-- C5 (amended): the renderer is deterministic in its order context,
reprint flag, username and clock reading — two runs agreeing on all four
(including the clock) produce identical payloads, and rendering has no
effect beyond the returned payload. -/
theorem renderer_deterministic_given_clock
    (ctx ctx' : OrderRenderContext) (is_reprint is_reprint' : Bool)
    (username username' dt dt' : String)
    (h1 : ctx = ctx') (h2 : is_reprint = is_reprint')
    (h3 : username = username') (h4 : dt = dt') :
    generate_kot_content_from_db ctx is_reprint username dt =
      generate_kot_content_from_db ctx' is_reprint' username' dt' := by
  subst h1; subst h2; subst h3; subst h4; rfl

/-- Witness for C5 (amended) at a concrete context and clock reading. -/
theorem renderer_deterministic_given_clock_witness :
    generate_kot_content_from_db c5ctx false "Alex" "2024-01-01 01:00:00 AM" =
      generate_kot_content_from_db c5ctx false "Alex" "2024-01-01 01:00:00 AM" :=
  renderer_deterministic_given_clock c5ctx c5ctx false false "Alex" "Alex"
    "2024-01-01 01:00:00 AM" "2024-01-01 01:00:00 AM" rfl rfl rfl rfl

/-- C6 counterexample: when `fs::write` itself fails the attempt returns
the write error without any `remove_file` call, so the temporary file is
not removed on the file-write-failure exit path. -/
theorem oscmd_write_failure_counterexample :
    try_windows_print_command "KOT" "POS-58" writeFailEnv =
      (.error "Failed to create print file: disk full",
        ⟨[("C:/Temp/zkp_print.txt", "\x1B@KOT")], [], []⟩) := rfl

/-- C6 (amended): the OS-print-command transport writes the payload
prefixed with the initialize sequence to the fixed
`<temp>/zkp_print.txt`, and on every exit path on which that write
succeeded — launch failure, non-zero exit, success — runs the print
utility once and removes the temporary file; on a write failure it
returns without removing, and it succeeds exactly when the write and the
launch succeed with a success exit status. -/
theorem oscmd_temp_file_lifecycle (content printer_name : String) (env : WinCmdEnv) :
    (try_windows_print_command content printer_name env).2.writes =
      [(env.tempDir ++ "/zkp_print.txt", "\x1B@" ++ content)] ∧
    (env.writeRes = .ok () →
      (try_windows_print_command content printer_name env).2.removes =
        [env.tempDir ++ "/zkp_print.txt"] ∧
      (try_windows_print_command content printer_name env).2.commands =
        [("cmd", ["/C", "print", "/D:\\\\localhost\\" ++ printer_name,
          env.tempDir ++ "/zkp_print.txt"])]) ∧
    (∀ e, env.writeRes = .error e →
      try_windows_print_command content printer_name env =
        (.error ("Failed to create print file: " ++ e),
          ⟨[(env.tempDir ++ "/zkp_print.txt", "\x1B@" ++ content)], [], []⟩)) ∧
    ((try_windows_print_command content printer_name env).1 = .ok () ↔
      env.writeRes = .ok () ∧ ∃ out, env.launch = .ok out ∧ out.success = true) := by
  refine ⟨?_, ?_, ?_, ?_⟩
  · cases hw : env.writeRes with
    | error e => simp [try_windows_print_command, hw]
    | ok u =>
      cases hl : env.launch with
      | error e => simp [try_windows_print_command, hw, hl]
      | ok out => cases hs : out.success <;> simp [try_windows_print_command, hw, hl, hs]
  · intro hw
    cases hl : env.launch with
    | error e => simp [try_windows_print_command, hw, hl]
    | ok out => cases hs : out.success <;> simp [try_windows_print_command, hw, hl, hs]
  · intro e hw
    simp [try_windows_print_command, hw]
  · cases hw : env.writeRes with
    | error e => simp [try_windows_print_command, hw]
    | ok u =>
      cases hl : env.launch with
      | error e => simp [try_windows_print_command, hw, hl]
      | ok out => cases hs : out.success <;> simp [try_windows_print_command, hw, hl, hs]

/-- Witness for C6 (amended): a non-success exit still removes the
temporary file and the attempt fails. -/
theorem oscmd_temp_file_lifecycle_witness :
    exitFailEnv.writeRes = .ok () ∧
    (try_windows_print_command "KOT" "POS-58" exitFailEnv).2.removes =
      ["C:/Temp/zkp_print.txt"] ∧
    (try_windows_print_command "KOT" "POS-58" exitFailEnv).1 ≠ .ok () :=
  ⟨rfl, ((oscmd_temp_file_lifecycle "KOT" "POS-58" exitFailEnv).2.1 rfl).1, by decide⟩

/-- C7: when the connection is never accepted the `tokio::time::timeout`
around the connect fires after the fixed `PRINT_TIMEOUT` bound and the
attempt returns the timeout failure (it does not suspend past the bound);
and the attempt never returns success without having connected, written
the full payload, and flushed. -/
theorem network_attempt_timeout_bound (content : String) (env : NetEnv) :
    (env.connect = .timeout →
      attempt_network_print content env =
        (.error "Connection timeout", ⟨PRINT_TIMEOUT_SECS, [], false⟩)) ∧
    ((attempt_network_print content env).1 = .ok () →
      env.connect = .connected ∧
      (attempt_network_print content env).2.wrote = [content] ∧
      (attempt_network_print content env).2.flushed = true) ∧
    (attempt_network_print content env).2.connectTimeoutSecs = PRINT_TIMEOUT_SECS := by
  refine ⟨?_, ?_, ?_⟩
  · intro h; simp [attempt_network_print, h]
  · intro h
    cases hc : env.connect <;> simp [attempt_network_print, hc] at h ⊢ <;>
      cases hw : env.writeRes <;> cases hf : env.flushRes <;>
        simp [hw, hf] at h ⊢
  · cases hc : env.connect <;> simp [attempt_network_print, hc] <;>
      cases hw : env.writeRes <;> cases hf : env.flushRes <;> simp [hw, hf]

/-- Witness for C7 at a never-accepted connection. -/
theorem network_attempt_timeout_bound_witness :
    attempt_network_print "KOT" ⟨.timeout, .ok (), .ok ()⟩ =
      (.error "Connection timeout", ⟨PRINT_TIMEOUT_SECS, [], false⟩) :=
  (network_attempt_timeout_bound "KOT" ⟨.timeout, .ok (), .ok ()⟩).1 rfl

/-- C8: for the composite item whose dine-in breakdown is
`{total:2, flavors:{"choco":{total:2, modifier:{"extra_sauce":1}}}}` and
whose pack breakdown is absent, the payload contains the line
`"    - choco: 2 (extra sauce:1)"` and no Pack section line. -/
theorem composite_item_rendering :
    ("    - choco: 2 (extra sauce:1)" ∈
      strLines (generate_kot_content_from_db c8ctx false "Alex" "2024-01-01 01:00:00 AM")) ∧
    ((strLines (generate_kot_content_from_db c8ctx false "Alex" "2024-01-01 01:00:00 AM")).all
      (fun l => !(strStartsWith "  - Pack" l)) = true) := by
  constructor
  · decide
  · decide

/-- C9: the totals text is `"<amount> (-<discount>)"` when the discount is
positive and `"<amount>"` otherwise; the padding makes the cashier name
end exactly at column `LINE_WIDTH` (48) whenever the combined text fits,
and is clamped to zero — no truncation — whenever it does not. -/
theorem totals_line_padding (total_amount discount_amount : Nat) (username : String) :
    (discount_amount > 0 →
      estimate_text total_amount discount_amount =
        toString total_amount ++ " (-" ++ toString discount_amount ++ ")") ∧
    (discount_amount = 0 →
      estimate_text total_amount discount_amount = toString total_amount) ∧
    ((estimate_text total_amount discount_amount).length + username.length ≤ LINE_WIDTH →
      (footer_line total_amount discount_amount username).length = LINE_WIDTH) ∧
    (LINE_WIDTH ≤ (estimate_text total_amount discount_amount).length + username.length →
      footer_line total_amount discount_amount username =
        estimate_text total_amount discount_amount ++ username) := by
  refine ⟨?_, ?_, ?_, ?_⟩
  · intro h; simp [estimate_text, h]
  · intro h; simp [estimate_text, h]
  · intro h
    simp only [footer_line, String.length_append, spaces_length]
    simp only [LINE_WIDTH] at h ⊢
    omega
  · intro h
    have hp : (LINE_WIDTH - (estimate_text total_amount discount_amount).length) -
        username.length = 0 := by
      simp only [LINE_WIDTH] at h ⊢
      omega
    simp only [footer_line, hp, show spaces 0 = "" from rfl, String.append_empty]

/-- Witness for C9: amount 100, discount 10, cashier `"Alex"` gives
`"100 (-10)"` padded so the name ends at column 48. -/
theorem totals_line_padding_witness :
    (0 : Nat) < 10 ∧
    estimate_text 100 10 = "100 (-10)" ∧
    (estimate_text 100 10).length + ("Alex" : String).length ≤ LINE_WIDTH ∧
    (footer_line 100 10 "Alex").length = LINE_WIDTH :=
  ⟨by decide, (totals_line_padding 100 10 "Alex").1 (by decide), by decide,
    (totals_line_padding 100 10 "Alex").2.2.1 (by decide)⟩

/-- C10: the Kot number is exactly the segment after the last `'-'` of the
order identifier (`afterLastSep`), is the whole identifier when no `'-'`
occurs, and the `unwrap_or("")` fallback is never taken because Rust's
`split` always yields at least one segment. -/
theorem kot_number_after_last_dash (s : String) :
    kot_number s = String.mk (afterLastSep '-' s.data) ∧
    ('-' ∉ s.data → kot_number s = s) ∧
    (splitChars '-' s.data).getLast? ≠ none := by
  refine ⟨?_, ?_, ?_⟩
  · simp [kot_number, splitChars_getLast?_eq]
  · intro h
    simp [kot_number, splitChars_getLast?_eq, afterLastSep_not_mem '-' s.data h]
  · rw [splitChars_getLast?_eq]
    simp

/-- Witness for C10 at an identifier with no dash. -/
theorem kot_number_after_last_dash_witness :
    ('-' ∉ ("noDash" : String).data) ∧ kot_number "noDash" = "noDash" :=
  ⟨by decide, (kot_number_after_last_dash "noDash").2.1 (by decide)⟩

end Printer
